import Mathlib

/-! # HTTP handlers of the insights-operator-controller (`server/configuration.go`)

A shallow embedding of the configuration handlers.  A handler is a function
from a request and a context to a context; the context carries the response
writer, the state of the storage behind the `storage.Storage` interface and
the ordered trace of calls the handler made to its two collaborators (the
storage and the audit-log client `splunk`).

Go `string` and `[]byte` are both byte sequences; both are embedded as `String`,
so the conversion `string(configuration)` is the identity.
-/

namespace Server

/-- A Go `error` value that is not nil, identified with the text of its `Error()` method. -/
abbrev GoError := String

/-- The constant `http.StatusOK`. -/
abbrev StatusOK : Nat := 200

/-- The constant `http.StatusAccepted`. -/
abbrev StatusAccepted : Nat := 202

/-- The constant `http.StatusBadRequest`. -/
abbrev StatusBadRequest : Nat := 400

/-- The state of an `http.ResponseWriter`: `status` is `none` until the header is written. -/
structure ResponseWriter where
  status : Option Nat
  body : String
deriving DecidableEq, Repr

/-- A response writer as a handler receives it: no header written, no body. -/
@[simp]
def ResponseWriter.fresh : ResponseWriter := { status := none, body := "" }

/-- The method `WriteHeader`: only the first call sets the status. -/
@[simp]
def ResponseWriter.WriteHeader (w : ResponseWriter) (code : Nat) : ResponseWriter :=
  match w.status with
  | none => { w with status := some code }
  | some _ => w

/-- The method `Write`: writes the header with `StatusOK` when none was written, then appends. -/
@[simp]
def ResponseWriter.Write (w : ResponseWriter) (s : String) : ResponseWriter :=
  let w1 := w.WriteHeader StatusOK
  { w1 with body := w1.body ++ s }

/-- The status the client receives: `StatusOK` when the handler never wrote a header. -/
def ResponseWriter.statusCode (w : ResponseWriter) : Nat := w.status.getD StatusOK

/-- The values of one key of `url.Values`.  `URL.Query()` adds a key only together with
a value, so the slice under a key that is present has a first element, `[0]`. -/
structure ParamValues where
  head : String
  tail : List String
deriving DecidableEq, Repr

/-- What `ioutil.ReadAll(request.Body)` returns: the bytes read and the error, if any. -/
structure Body where
  data : String
  err : Option GoError
deriving DecidableEq, Repr

/-- The function `ioutil.ReadAll` on a request body. -/
@[simp]
def ReadAll (b : Body) : String × Option GoError := (b.data, b.err)

/-- The parts of an `*http.Request` the handlers read: `vars` is `mux.Vars(request)`,
`query` is `request.URL.Query()`, both maps as association lists. -/
structure Request where
  vars : List (String × String)
  query : List (String × ParamValues)
  Body : Body
deriving Repr

/-- The calls of the `storage.Storage` interface, with their arguments. -/
inductive StorageCall where
  | GetClusterConfigurationById (id : String)
  | DeleteClusterConfigurationById (id : String)
  | ListAllClusterConfigurations
  | ListClusterConfiguration (cluster : String)
  | EnableOrDisableClusterConfigurationById (id active : String)
  | CreateClusterConfiguration (cluster username reason description configuration : String)
  | EnableClusterConfiguration (cluster username reason : String)
  | DisableClusterConfiguration (cluster username reason : String)
deriving DecidableEq, Repr

/-- A call a handler makes to one of its collaborators. -/
inductive Effect where
  | storage (call : StorageCall)
  | LogAction (action actor detail : String)
deriving DecidableEq, Repr

/-- Whether the effect is a call of a storage method. -/
@[simp]
def Effect.isStorage : Effect → Bool
  | .storage _ => true
  | .LogAction _ _ _ => false

/-- Whether the effect is a call of `splunk.LogAction`. -/
@[simp]
def Effect.isLog : Effect → Bool
  | .storage _ => false
  | .LogAction _ _ _ => true

/-- The interface `storage.Storage` as far as the handlers use it, over a storage state `σ`
and a type `κ` of listed configurations.  A method returns its result (the value, or the
error when it is not nil) and the state it leaves. -/
structure Storage (σ κ : Type) where
  GetClusterConfigurationById : String → σ → Except GoError String × σ
  DeleteClusterConfigurationById : String → σ → Option GoError × σ
  ListAllClusterConfigurations : σ → Except GoError (List κ) × σ
  ListClusterConfiguration : String → σ → Except GoError (List κ) × σ
  EnableOrDisableClusterConfigurationById : String → String → σ → Option GoError × σ
  CreateClusterConfiguration :
    String → String → String → String → String → σ → Except GoError (List κ) × σ
  EnableClusterConfiguration : String → String → String → σ → Except GoError (List κ) × σ
  DisableClusterConfiguration : String → String → String → σ → Except GoError (List κ) × σ

/-- What a handler acts on: the response writer, the storage state and the trace of the
calls made so far, oldest first. -/
structure Ctx (σ : Type) where
  writer : ResponseWriter
  db : σ
  trace : List Effect
deriving DecidableEq

variable {σ κ : Type}

/-- The context at the start of a request: a fresh writer and an empty trace. -/
@[simp]
def Ctx.start (db : σ) : Ctx σ := { writer := ResponseWriter.fresh, db := db, trace := [] }

/-- The calls of storage methods in the trace. -/
@[simp]
def Ctx.storageCalls (c : Ctx σ) : List Effect := c.trace.filter Effect.isStorage

/-- The calls of `splunk.LogAction` in the trace. -/
@[simp]
def Ctx.logCalls (c : Ctx σ) : List Effect := c.trace.filter Effect.isLog

/-- The call `writer.WriteHeader(code)`. -/
@[simp]
def Ctx.WriteHeader (c : Ctx σ) (code : Nat) : Ctx σ :=
  { c with writer := c.writer.WriteHeader code }

/-- The call `io.WriteString(writer, s)`. -/
@[simp]
def Ctx.WriteString (c : Ctx σ) (s : String) : Ctx σ :=
  { c with writer := c.writer.Write s }

/-- The call `json.NewEncoder(writer).Encode(v)`, where `marshal v` is the text the encoder
writes for `v`. -/
@[simp]
def Ctx.Encode (c : Ctx σ) (marshal : List κ → String) (v : List κ) : Ctx σ :=
  { c with writer := c.writer.Write (marshal v) }

/-- The call `splunk.LogAction(action, actor, detail)`. -/
@[simp]
def Ctx.LogAction (c : Ctx σ) (action actor detail : String) : Ctx σ :=
  { c with trace := c.trace ++ [Effect.LogAction action actor detail] }

/-- Records a storage call in the trace and installs the state it leaves. -/
@[simp]
def Ctx.called (c : Ctx σ) (call : StorageCall) (db : σ) : Ctx σ :=
  { c with db := db, trace := c.trace ++ [Effect.storage call] }

/-- The call `storage.GetClusterConfigurationById(id)`. -/
@[simp]
def Ctx.GetClusterConfigurationById (c : Ctx σ) (storage : Storage σ κ) (id : String) :
    Except GoError String × Ctx σ :=
  let r := storage.GetClusterConfigurationById id c.db
  (r.1, c.called (.GetClusterConfigurationById id) r.2)

/-- The call `storage.DeleteClusterConfigurationById(id)`. -/
@[simp]
def Ctx.DeleteClusterConfigurationById (c : Ctx σ) (storage : Storage σ κ) (id : String) :
    Option GoError × Ctx σ :=
  let r := storage.DeleteClusterConfigurationById id c.db
  (r.1, c.called (.DeleteClusterConfigurationById id) r.2)

/-- The call `storage.ListAllClusterConfigurations()`. -/
@[simp]
def Ctx.ListAllClusterConfigurations (c : Ctx σ) (storage : Storage σ κ) :
    Except GoError (List κ) × Ctx σ :=
  let r := storage.ListAllClusterConfigurations c.db
  (r.1, c.called .ListAllClusterConfigurations r.2)

/-- The call `storage.ListClusterConfiguration(cluster)`. -/
@[simp]
def Ctx.ListClusterConfiguration (c : Ctx σ) (storage : Storage σ κ) (cluster : String) :
    Except GoError (List κ) × Ctx σ :=
  let r := storage.ListClusterConfiguration cluster c.db
  (r.1, c.called (.ListClusterConfiguration cluster) r.2)

/-- The call `storage.EnableOrDisableClusterConfigurationById(id, active)`. -/
@[simp]
def Ctx.EnableOrDisableClusterConfigurationById (c : Ctx σ) (storage : Storage σ κ)
    (id active : String) : Option GoError × Ctx σ :=
  let r := storage.EnableOrDisableClusterConfigurationById id active c.db
  (r.1, c.called (.EnableOrDisableClusterConfigurationById id active) r.2)

/-- The call `storage.CreateClusterConfiguration(cluster, username, reason, description,
configuration)`. -/
@[simp]
def Ctx.CreateClusterConfiguration (c : Ctx σ) (storage : Storage σ κ)
    (cluster username reason description configuration : String) :
    Except GoError (List κ) × Ctx σ :=
  let r := storage.CreateClusterConfiguration cluster username reason description configuration c.db
  (r.1, c.called (.CreateClusterConfiguration cluster username reason description configuration) r.2)

/-- The call `storage.EnableClusterConfiguration(cluster, username, reason)`. -/
@[simp]
def Ctx.EnableClusterConfiguration (c : Ctx σ) (storage : Storage σ κ)
    (cluster username reason : String) : Except GoError (List κ) × Ctx σ :=
  let r := storage.EnableClusterConfiguration cluster username reason c.db
  (r.1, c.called (.EnableClusterConfiguration cluster username reason) r.2)

/-- The call `storage.DisableClusterConfiguration(cluster, username, reason)`. -/
@[simp]
def Ctx.DisableClusterConfiguration (c : Ctx σ) (storage : Storage σ κ)
    (cluster username reason : String) : Except GoError (List κ) × Ctx σ :=
  let r := storage.DisableClusterConfiguration cluster username reason c.db
  (r.1, c.called (.DisableClusterConfiguration cluster username reason) r.2)

/-! ## The handlers -/

/-- The handler `getConfiguration`. -/
def getConfiguration (storage : Storage σ κ) (request : Request) (c : Ctx σ) : Ctx σ :=
  match request.vars.lookup "id" with
  | none =>
    (c.WriteHeader StatusBadRequest).WriteString "Configuration ID needs to be specified"
  | some id =>
    match c.GetClusterConfigurationById storage id with
    | (.error err, c) => (c.WriteHeader StatusBadRequest).WriteString err
    | (.ok configuration, c) => c.WriteString configuration

/-- The handler `deleteConfiguration`. -/
def deleteConfiguration (storage : Storage σ κ) (request : Request) (c : Ctx σ) : Ctx σ :=
  match request.vars.lookup "id" with
  | none =>
    (c.WriteHeader StatusBadRequest).WriteString "Configuration ID needs to be specified"
  | some id =>
    let c := c.LogAction "DeleteClusterConfigurationById" "tester" id
    match c.DeleteClusterConfigurationById storage id with
    | (some err, c) => (c.WriteHeader StatusBadRequest).WriteString err
    | (none, c) => (c.WriteHeader StatusOK).WriteString "Deleted"

/-- The handler `getAllConfigurations`. -/
def getAllConfigurations (storage : Storage σ κ) (marshal : List κ → String)
    (_request : Request) (c : Ctx σ) : Ctx σ :=
  match c.ListAllClusterConfigurations storage with
  | (.error err, c) => (c.WriteHeader StatusBadRequest).WriteString err
  | (.ok configuration, c) => c.Encode marshal configuration

/-- The handler `getClusterConfiguration`. -/
def getClusterConfiguration (storage : Storage σ κ) (marshal : List κ → String)
    (request : Request) (c : Ctx σ) : Ctx σ :=
  match request.vars.lookup "cluster" with
  | none => (c.WriteHeader StatusBadRequest).WriteString "Cluster ID needs to be specified"
  | some cluster =>
    match c.ListClusterConfiguration storage cluster with
    | (.error err, c) => (c.WriteHeader StatusBadRequest).WriteString err
    | (.ok configuration, c) => c.Encode marshal configuration

/-- The handler `enableOrDisableConfiguration`. -/
def enableOrDisableConfiguration (storage : Storage σ κ) (request : Request) (c : Ctx σ)
    (active : String) : Ctx σ :=
  match request.vars.lookup "id" with
  | none =>
    (c.WriteHeader StatusBadRequest).WriteString "Configuration ID needs to be specified"
  | some id =>
    let c :=
      if active = "0" then c.LogAction "DisableClusterConfiguration" "tester" id
      else c.LogAction "EnableClusterConfiguration" "tester" id
    match c.EnableOrDisableClusterConfigurationById storage id active with
    | (some err, c) => (c.WriteHeader StatusBadRequest).WriteString err
    | (none, c) =>
      if active = "0" then c.WriteString "disabled"
      else c.WriteString "enabled"

/-- The handler `enableConfiguration`. -/
def enableConfiguration (storage : Storage σ κ) (request : Request) (c : Ctx σ) : Ctx σ :=
  enableOrDisableConfiguration storage request c "1"

/-- The handler `disableConfiguration`. -/
def disableConfiguration (storage : Storage σ κ) (request : Request) (c : Ctx σ) : Ctx σ :=
  enableOrDisableConfiguration storage request c "0"

/-- The handler `newClusterConfiguration`. -/
def newClusterConfiguration (storage : Storage σ κ) (marshal : List κ → String)
    (request : Request) (c : Ctx σ) : Ctx σ :=
  match request.vars.lookup "cluster" with
  | none => (c.WriteHeader StatusBadRequest).WriteString "Cluster ID needs to be specified"
  | some cluster =>
    match request.query.lookup "username" with
    | none =>
      (c.WriteHeader StatusBadRequest).WriteString "User name needs to be specified\n"
    | some username =>
      match request.query.lookup "reason" with
      | none =>
        (c.WriteHeader StatusBadRequest).WriteString "Reason needs to be specified\n"
      | some reason =>
        match request.query.lookup "description" with
        | none =>
          (c.WriteHeader StatusBadRequest).WriteString "Description needs to be specified\n"
        | some description =>
          let configuration := (ReadAll request.Body).1
          let err := (ReadAll request.Body).2
          if err ≠ none ∨ configuration.length = 0 then
            (c.WriteHeader StatusBadRequest).WriteString
              "Configuration needs to be provided in the request body"
          else
            match c.CreateClusterConfiguration storage cluster username.head reason.head
                description.head configuration with
            | (.error err, c) => (c.WriteHeader StatusBadRequest).WriteString err
            | (.ok configurations, c) =>
              (c.LogAction "NewClusterConfiguration" "tester" configuration).Encode marshal
                configurations

/-- The handler `enableClusterConfiguration`. -/
def enableClusterConfiguration (storage : Storage σ κ) (marshal : List κ → String)
    (request : Request) (c : Ctx σ) : Ctx σ :=
  match request.vars.lookup "cluster" with
  | none => (c.WriteHeader StatusBadRequest).WriteString "Cluster ID needs to be specified"
  | some cluster =>
    match request.query.lookup "username" with
    | none =>
      (c.WriteHeader StatusBadRequest).WriteString "User name needs to be specified\n"
    | some username =>
      match request.query.lookup "reason" with
      | none =>
        (c.WriteHeader StatusBadRequest).WriteString "Reason needs to be specified\n"
      | some reason =>
        let c := c.LogAction "EnableClusterConfiguration" username.head cluster
        match c.EnableClusterConfiguration storage cluster username.head reason.head with
        | (.error err, c) => (c.WriteHeader StatusBadRequest).WriteString err
        | (.ok configurations, c) => c.Encode marshal configurations

/-- The handler `disableClusterConfiguration`. -/
def disableClusterConfiguration (storage : Storage σ κ) (marshal : List κ → String)
    (request : Request) (c : Ctx σ) : Ctx σ :=
  match request.vars.lookup "cluster" with
  | none => (c.WriteHeader StatusBadRequest).WriteString "Cluster ID needs to be specified"
  | some cluster =>
    match request.query.lookup "username" with
    | none =>
      (c.WriteHeader StatusBadRequest).WriteString "User name needs to be specified\n"
    | some username =>
      match request.query.lookup "reason" with
      | none =>
        (c.WriteHeader StatusBadRequest).WriteString "Reason needs to be specified\n"
      | some reason =>
        let c := c.LogAction "DisableClusterConfiguration" username.head cluster
        match c.DisableClusterConfiguration storage cluster username.head reason.head with
        | (.error err, c) => (c.WriteHeader StatusBadRequest).WriteString err
        | (.ok configurations, c) => c.Encode marshal configurations

/-! ## A storage in memory

An instance of the storage interface on which the handlers can be evaluated.  It is not
part of the repository: a configuration is filed under the name of its cluster, and the
newest configuration of a cluster is the one found under that name. -/

/-- A stored configuration. -/
structure Row where
  id : String
  cluster : String
  username : String
  reason : String
  description : String
  configuration : String
  active : Bool
deriving DecidableEq, Repr

/-- The rows of a cluster. -/
def rowsOf (cluster : String) (db : List Row) : List Row :=
  db.filter fun r => r.cluster == cluster

/-- Sets the flag of the rows that satisfy `p`. -/
def setActive (p : Row → Bool) (active : Bool) (db : List Row) : List Row :=
  db.map fun r => if p r then { r with active := active } else r

/-- A storage over a list of rows. -/
def memStorage : Storage (List Row) Row where
  GetClusterConfigurationById id db :=
    match db.find? fun r => r.id == id with
    | some r => (.ok r.configuration, db)
    | none => (.error "no such configuration", db)
  DeleteClusterConfigurationById id db :=
    if db.any fun r => r.id == id then (none, db.filter fun r => r.id != id)
    else (some "no such configuration", db)
  ListAllClusterConfigurations db := (.ok db, db)
  ListClusterConfiguration cluster db :=
    if cluster == "" then (.error "no such cluster", db) else (.ok (rowsOf cluster db), db)
  EnableOrDisableClusterConfigurationById id active db :=
    if db.any fun r => r.id == id then
      (none, setActive (fun r => r.id == id) (active != "0") db)
    else (some "no such configuration", db)
  CreateClusterConfiguration cluster username reason description configuration db :=
    if cluster == "" then (.error "no such cluster", db)
    else
      (.ok (rowsOf cluster
          ({ id := cluster, cluster := cluster, username := username, reason := reason,
             description := description, configuration := configuration,
             active := false } :: db)),
        { id := cluster, cluster := cluster, username := username, reason := reason,
          description := description, configuration := configuration, active := false } :: db)
  EnableClusterConfiguration cluster _username _reason db :=
    if db.any fun r => r.cluster == cluster then
      (.ok (rowsOf cluster (setActive (fun r => r.cluster == cluster) true db)),
        setActive (fun r => r.cluster == cluster) true db)
    else (.error "no such cluster", db)
  DisableClusterConfiguration cluster _username _reason db :=
    if db.any fun r => r.cluster == cluster then
      (.ok (rowsOf cluster (setActive (fun r => r.cluster == cluster) false db)),
        setActive (fun r => r.cluster == cluster) false db)
    else (.error "no such cluster", db)

/-- A text for a list of rows, in the place of the JSON encoder. -/
def marshalRows (rows : List Row) : String :=
  "[" ++ ",".intercalate (rows.map fun r => r.configuration) ++ "]\n"

/-- A storage state with one configuration, of cluster `c1`. -/
def db1 : List Row :=
  [{ id := "c1", cluster := "c1", username := "u", reason := "r", description := "d",
     configuration := "old", active := false }]

/-- The request `POST …/c1?username=u&reason=r&description=d` with body `cfg`. -/
def createRequest : Request :=
  { vars := [("cluster", "c1")],
    query := [("username", ⟨"u", []⟩), ("reason", ⟨"r", []⟩), ("description", ⟨"d", []⟩)],
    Body := ⟨"cfg", none⟩ }

/-- The request `POST …/c1?username=&reason=r&description=d` with body `cfg`: the
parameter `username` is present and its value is the empty string. -/
def emptyUsernameRequest : Request :=
  { vars := [("cluster", "c1")],
    query := [("username", ⟨"", []⟩), ("reason", ⟨"r", []⟩), ("description", ⟨"d", []⟩)],
    Body := ⟨"cfg", none⟩ }

/-- A request with the path variable `id` and nothing else. -/
def idRequest (id : String) : Request :=
  { vars := [("id", id)], query := [], Body := ⟨"", none⟩ }

/-- A request with the path variable `cluster` and the given query. -/
def clusterRequest (cluster : String) (query : List (String × ParamValues)) : Request :=
  { vars := [("cluster", cluster)], query := query, Body := ⟨"", none⟩ }

/-! ## Clusters

The handlers of the cluster resource and the storage behind them are not among the
sources; `server/cluster_test.go` exercises them through the REST interface. -/

/-- Modelled from the spec: a cluster, "`{id: integer, name: string}`", with identity the
id.  The type `storage.Cluster` is missing from the sources; the tests build its values
from an integer and a name. -/
structure Cluster where
  ID : Int
  Name : String
deriving DecidableEq, Repr

/-- Modelled from the spec: what the storage does on the deletion of a cluster, which is
missing from the sources: "deleting cluster `4` removes exactly that entry from
subsequent listings; deleting a nonexistent id (`40`) leaves the list unchanged". -/
def DeleteCluster (id : Int) : List Cluster → List Cluster
  | [] => []
  | c :: cs => if c.ID = id then DeleteCluster id cs else c :: DeleteCluster id cs

/-- Modelled from the spec: the handler of `DELETE client/cluster/{id}`, which is missing
from the sources: "`DeleteCluster(id) -> 202 Accepted` regardless of whether the id
existed (storage is authoritative on actual deletion)".  The id is the path variable
read as an integer. -/
def deleteCluster (id : Int) (c : Ctx (List Cluster)) : Ctx (List Cluster) :=
  { c with db := DeleteCluster id c.db }.WriteHeader StatusAccepted

/-- Modelled from the spec: the list `GET client/cluster` answers, which is missing from
the sources: "returns all clusters, order defined by storage". -/
def getClusters (c : Ctx (List Cluster)) : List Cluster := c.db

/-- The clusters `TestDeleteAnotherCluster` starts from, as `TestDeleteCluster` lists
them. -/
def seededClusters : List Cluster :=
  [⟨0, "cluster0"⟩, ⟨1, "cluster1"⟩, ⟨2, "cluster2"⟩, ⟨3, "cluster3"⟩, ⟨4, "cluster4"⟩]

/-! ## Auxiliary facts -/

/-- A string has length zero exactly when it is the empty string. -/
theorem length_eq_zero_iff (s : String) : s.length = 0 ↔ s = "" := by
  constructor
  · intro h
    have hd : s.data = [] := List.length_eq_zero.mp h
    exact String.ext hd
  · intro h
    subst h
    rfl

/-- A body that was read without error and is not empty passes the check of
`newClusterConfiguration`. -/
theorem body_check_passes (b : Body) (herr : b.err = none) (hb : b.data ≠ "") :
    ¬((ReadAll b).2 ≠ none ∨ (ReadAll b).1.length = 0) := by
  intro h
  rcases h with h | h
  · exact h herr
  · exact hb ((length_eq_zero_iff _).mp h)

/-- The outcome of `getConfiguration` on a request with an `id`. -/
theorem getConfiguration_run (storage : Storage σ κ) (request : Request) (db : σ)
    (id : String) (hid : request.vars.lookup "id" = some id) :
    getConfiguration storage request (Ctx.start db) =
      { writer :=
          match (storage.GetClusterConfigurationById id db).1 with
          | .error err => ⟨some 400, err⟩
          | .ok configuration => ⟨some 200, configuration⟩,
        db := (storage.GetClusterConfigurationById id db).2,
        trace := [Effect.storage (.GetClusterConfigurationById id)] } := by
  rcases hres : storage.GetClusterConfigurationById id db with ⟨r, db1⟩
  cases r <;> simp [getConfiguration, hid, hres]

/-- The outcome of `deleteConfiguration` on a request with an `id`. -/
theorem deleteConfiguration_run (storage : Storage σ κ) (request : Request) (db : σ)
    (id : String) (hid : request.vars.lookup "id" = some id) :
    deleteConfiguration storage request (Ctx.start db) =
      { writer :=
          match (storage.DeleteClusterConfigurationById id db).1 with
          | some err => ⟨some 400, err⟩
          | none => ⟨some 200, "Deleted"⟩,
        db := (storage.DeleteClusterConfigurationById id db).2,
        trace := [Effect.LogAction "DeleteClusterConfigurationById" "tester" id,
          Effect.storage (.DeleteClusterConfigurationById id)] } := by
  rcases hres : storage.DeleteClusterConfigurationById id db with ⟨r, db1⟩
  cases r <;> simp [deleteConfiguration, hid, hres]

/-- The outcome of `getAllConfigurations`. -/
theorem getAllConfigurations_run (storage : Storage σ κ) (marshal : List κ → String)
    (request : Request) (db : σ) :
    getAllConfigurations storage marshal request (Ctx.start db) =
      { writer :=
          match (storage.ListAllClusterConfigurations db).1 with
          | .error err => ⟨some 400, err⟩
          | .ok configuration => ⟨some 200, marshal configuration⟩,
        db := (storage.ListAllClusterConfigurations db).2,
        trace := [Effect.storage .ListAllClusterConfigurations] } := by
  rcases hres : storage.ListAllClusterConfigurations db with ⟨r, db1⟩
  cases r <;> simp [getAllConfigurations, hres]

/-- The outcome of `getClusterConfiguration` on a request with a cluster. -/
theorem getClusterConfiguration_run (storage : Storage σ κ) (marshal : List κ → String)
    (request : Request) (db : σ) (cluster : String)
    (hc : request.vars.lookup "cluster" = some cluster) :
    getClusterConfiguration storage marshal request (Ctx.start db) =
      { writer :=
          match (storage.ListClusterConfiguration cluster db).1 with
          | .error err => ⟨some 400, err⟩
          | .ok configuration => ⟨some 200, marshal configuration⟩,
        db := (storage.ListClusterConfiguration cluster db).2,
        trace := [Effect.storage (.ListClusterConfiguration cluster)] } := by
  rcases hres : storage.ListClusterConfiguration cluster db with ⟨r, db1⟩
  cases r <;> simp [getClusterConfiguration, hc, hres]

/-- The outcome of `enableOrDisableConfiguration` on a request with an `id`. -/
theorem enableOrDisableConfiguration_run (storage : Storage σ κ) (request : Request) (db : σ)
    (id active : String) (hid : request.vars.lookup "id" = some id) :
    enableOrDisableConfiguration storage request (Ctx.start db) active =
      { writer :=
          match (storage.EnableOrDisableClusterConfigurationById id active db).1 with
          | some err => ⟨some 400, err⟩
          | none => ⟨some 200, if active = "0" then "disabled" else "enabled"⟩,
        db := (storage.EnableOrDisableClusterConfigurationById id active db).2,
        trace :=
          [Effect.LogAction
              (if active = "0" then "DisableClusterConfiguration"
               else "EnableClusterConfiguration") "tester" id,
            Effect.storage (.EnableOrDisableClusterConfigurationById id active)] } := by
  rcases hres : storage.EnableOrDisableClusterConfigurationById id active db with ⟨r, db1⟩
  by_cases ha : active = "0"
  · subst ha
    cases r <;> simp [enableOrDisableConfiguration, hid, hres]
  · cases r <;> simp [enableOrDisableConfiguration, hid, hres, ha]

/-- The outcome of `newClusterConfiguration` on a request that passes its checks. -/
theorem newClusterConfiguration_run (storage : Storage σ κ) (marshal : List κ → String)
    (request : Request) (db : σ) (cluster : String) (username reason description : ParamValues)
    (hc : request.vars.lookup "cluster" = some cluster)
    (hu : request.query.lookup "username" = some username)
    (hr : request.query.lookup "reason" = some reason)
    (hd : request.query.lookup "description" = some description)
    (herr : request.Body.err = none) (hb : request.Body.data ≠ "") :
    newClusterConfiguration storage marshal request (Ctx.start db) =
      { writer :=
          match (storage.CreateClusterConfiguration cluster username.head reason.head
              description.head request.Body.data db).1 with
          | .error err => ⟨some 400, err⟩
          | .ok configurations => ⟨some 200, marshal configurations⟩,
        db := (storage.CreateClusterConfiguration cluster username.head reason.head
              description.head request.Body.data db).2,
        trace :=
          Effect.storage (.CreateClusterConfiguration cluster username.head reason.head
              description.head request.Body.data) ::
            match (storage.CreateClusterConfiguration cluster username.head reason.head
              description.head request.Body.data db).1 with
            | .error _ => []
            | .ok _ => [Effect.LogAction "NewClusterConfiguration" "tester"
                request.Body.data] } := by
  have hcond := body_check_passes request.Body herr hb
  rcases hres : storage.CreateClusterConfiguration cluster username.head reason.head
    description.head request.Body.data db with ⟨r, db1⟩
  simp only [newClusterConfiguration, hc, hu, hr, hd, if_neg hcond]
  cases r <;> simp [hres]

/-- The outcome of `enableClusterConfiguration` on a request that passes its checks. -/
theorem enableClusterConfiguration_run (storage : Storage σ κ) (marshal : List κ → String)
    (request : Request) (db : σ) (cluster : String) (username reason : ParamValues)
    (hc : request.vars.lookup "cluster" = some cluster)
    (hu : request.query.lookup "username" = some username)
    (hr : request.query.lookup "reason" = some reason) :
    enableClusterConfiguration storage marshal request (Ctx.start db) =
      { writer :=
          match (storage.EnableClusterConfiguration cluster username.head reason.head db).1 with
          | .error err => ⟨some 400, err⟩
          | .ok configurations => ⟨some 200, marshal configurations⟩,
        db := (storage.EnableClusterConfiguration cluster username.head reason.head db).2,
        trace := [Effect.LogAction "EnableClusterConfiguration" username.head cluster,
          Effect.storage (.EnableClusterConfiguration cluster username.head reason.head)] } := by
  rcases hres : storage.EnableClusterConfiguration cluster username.head reason.head db
    with ⟨r, db1⟩
  cases r <;> simp [enableClusterConfiguration, hc, hu, hr, hres]

/-- The outcome of `disableClusterConfiguration` on a request that passes its checks. -/
theorem disableClusterConfiguration_run (storage : Storage σ κ) (marshal : List κ → String)
    (request : Request) (db : σ) (cluster : String) (username reason : ParamValues)
    (hc : request.vars.lookup "cluster" = some cluster)
    (hu : request.query.lookup "username" = some username)
    (hr : request.query.lookup "reason" = some reason) :
    disableClusterConfiguration storage marshal request (Ctx.start db) =
      { writer :=
          match (storage.DisableClusterConfiguration cluster username.head reason.head db).1 with
          | .error err => ⟨some 400, err⟩
          | .ok configurations => ⟨some 200, marshal configurations⟩,
        db := (storage.DisableClusterConfiguration cluster username.head reason.head db).2,
        trace := [Effect.LogAction "DisableClusterConfiguration" username.head cluster,
          Effect.storage (.DisableClusterConfiguration cluster username.head reason.head)] } := by
  rcases hres : storage.DisableClusterConfiguration cluster username.head reason.head db
    with ⟨r, db1⟩
  cases r <;> simp [disableClusterConfiguration, hc, hu, hr, hres]

/-- Deleting a cluster keeps the clusters of another id, in their order. -/
theorem DeleteCluster_eq_filter (id : Int) (db : List Cluster) :
    DeleteCluster id db = db.filter fun c => decide (c.ID ≠ id) := by
  induction db with
  | nil => rfl
  | cons c cs ih =>
    by_cases h : c.ID = id
    · simp [DeleteCluster, h, ih]
    · simp [DeleteCluster, h, ih]

/-- The calls of `getConfiguration`: at most one to the storage, none to the audit log. -/
theorem getConfiguration_calls (storage : Storage σ κ) (request : Request) (db : σ) :
    (getConfiguration storage request (Ctx.start db)).storageCalls.length ≤ 1 ∧
    (getConfiguration storage request (Ctx.start db)).logCalls = [] := by
  cases hid : request.vars.lookup "id" with
  | none => simp [getConfiguration, hid]
  | some id =>
    rw [getConfiguration_run storage request db id hid]
    simp

/-- The calls of `getAllConfigurations`: one to the storage, none to the audit log. -/
theorem getAllConfigurations_calls (storage : Storage σ κ) (marshal : List κ → String)
    (request : Request) (db : σ) :
    (getAllConfigurations storage marshal request (Ctx.start db)).storageCalls.length ≤ 1 ∧
    (getAllConfigurations storage marshal request (Ctx.start db)).logCalls = [] := by
  rw [getAllConfigurations_run storage marshal request db]
  simp

/-- The calls of `getClusterConfiguration`: at most one to the storage, none to the audit
log. -/
theorem getClusterConfiguration_calls (storage : Storage σ κ) (marshal : List κ → String)
    (request : Request) (db : σ) :
    (getClusterConfiguration storage marshal request (Ctx.start db)).storageCalls.length ≤ 1 ∧
    (getClusterConfiguration storage marshal request (Ctx.start db)).logCalls = [] := by
  cases hc : request.vars.lookup "cluster" with
  | none => simp [getClusterConfiguration, hc]
  | some cluster =>
    rw [getClusterConfiguration_run storage marshal request db cluster hc]
    simp

/-- The calls of `deleteConfiguration`: at most one of each kind. -/
theorem deleteConfiguration_calls (storage : Storage σ κ) (request : Request) (db : σ) :
    (deleteConfiguration storage request (Ctx.start db)).storageCalls.length ≤ 1 ∧
    (deleteConfiguration storage request (Ctx.start db)).logCalls.length ≤ 1 := by
  cases hid : request.vars.lookup "id" with
  | none => simp [deleteConfiguration, hid]
  | some id =>
    rw [deleteConfiguration_run storage request db id hid]
    simp

/-- The calls of `enableOrDisableConfiguration`: at most one of each kind. -/
theorem enableOrDisableConfiguration_calls (storage : Storage σ κ) (request : Request)
    (db : σ) (active : String) :
    (enableOrDisableConfiguration storage request (Ctx.start db) active).storageCalls.length
      ≤ 1 ∧
    (enableOrDisableConfiguration storage request (Ctx.start db) active).logCalls.length
      ≤ 1 := by
  cases hid : request.vars.lookup "id" with
  | none => simp [enableOrDisableConfiguration, hid]
  | some id =>
    rw [enableOrDisableConfiguration_run storage request db id active hid]
    simp

/-- The calls of `newClusterConfiguration`: at most one of each kind. -/
theorem newClusterConfiguration_calls (storage : Storage σ κ) (marshal : List κ → String)
    (request : Request) (db : σ) :
    (newClusterConfiguration storage marshal request (Ctx.start db)).storageCalls.length ≤ 1 ∧
    (newClusterConfiguration storage marshal request (Ctx.start db)).logCalls.length ≤ 1 := by
  cases hc : request.vars.lookup "cluster" with
  | none => simp [newClusterConfiguration, hc]
  | some cluster =>
    cases hu : request.query.lookup "username" with
    | none => simp [newClusterConfiguration, hc, hu]
    | some username =>
      cases hr : request.query.lookup "reason" with
      | none => simp [newClusterConfiguration, hc, hu, hr]
      | some reason =>
        cases hd : request.query.lookup "description" with
        | none => simp [newClusterConfiguration, hc, hu, hr, hd]
        | some description =>
          by_cases hcond : (ReadAll request.Body).2 ≠ none ∨ (ReadAll request.Body).1.length = 0
          · simp only [newClusterConfiguration, hc, hu, hr, hd, if_pos hcond]
            simp
          · have herr : request.Body.err = none := by
              by_contra h
              exact hcond (Or.inl h)
            have hb : request.Body.data ≠ "" := by
              intro h
              exact hcond (Or.inr ((length_eq_zero_iff _).mpr h))
            rw [newClusterConfiguration_run storage marshal request db cluster username reason
              description hc hu hr hd herr hb]
            cases h : (storage.CreateClusterConfiguration cluster username.head reason.head
              description.head request.Body.data db).1 <;> simp

/-- The calls of `enableClusterConfiguration`: at most one of each kind. -/
theorem enableClusterConfiguration_calls (storage : Storage σ κ) (marshal : List κ → String)
    (request : Request) (db : σ) :
    (enableClusterConfiguration storage marshal request (Ctx.start db)).storageCalls.length
      ≤ 1 ∧
    (enableClusterConfiguration storage marshal request (Ctx.start db)).logCalls.length
      ≤ 1 := by
  cases hc : request.vars.lookup "cluster" with
  | none => simp [enableClusterConfiguration, hc]
  | some cluster =>
    cases hu : request.query.lookup "username" with
    | none => simp [enableClusterConfiguration, hc, hu]
    | some username =>
      cases hr : request.query.lookup "reason" with
      | none => simp [enableClusterConfiguration, hc, hu, hr]
      | some reason =>
        rw [enableClusterConfiguration_run storage marshal request db cluster username reason
          hc hu hr]
        simp

/-- The calls of `disableClusterConfiguration`: at most one of each kind. -/
theorem disableClusterConfiguration_calls (storage : Storage σ κ) (marshal : List κ → String)
    (request : Request) (db : σ) :
    (disableClusterConfiguration storage marshal request (Ctx.start db)).storageCalls.length
      ≤ 1 ∧
    (disableClusterConfiguration storage marshal request (Ctx.start db)).logCalls.length
      ≤ 1 := by
  cases hc : request.vars.lookup "cluster" with
  | none => simp [disableClusterConfiguration, hc]
  | some cluster =>
    cases hu : request.query.lookup "username" with
    | none => simp [disableClusterConfiguration, hc, hu]
    | some username =>
      cases hr : request.query.lookup "reason" with
      | none => simp [disableClusterConfiguration, hc, hu, hr]
      | some reason =>
        rw [disableClusterConfiguration_run storage marshal request db cluster username reason
          hc hu hr]
        simp

/-! ## Validation of `newClusterConfiguration` -/

/-- C2: `newClusterConfiguration` answers 400 with the message of the first missing input
in the order cluster, username, reason, description, body (a body that cannot be read or
has length zero counts as missing); the five messages are pairwise distinct, and in each
of these cases the handler makes no call to the storage or to the audit log and leaves
the storage state as it was. -/
theorem newClusterConfiguration_first_missing_input (storage : Storage σ κ)
    (marshal : List κ → String) (request : Request) (db : σ) :
    (request.vars.lookup "cluster" = none →
      newClusterConfiguration storage marshal request (Ctx.start db) =
        { writer := ⟨some 400, "Cluster ID needs to be specified"⟩, db := db, trace := [] }) ∧
    ((request.vars.lookup "cluster").isSome →
      request.query.lookup "username" = none →
      newClusterConfiguration storage marshal request (Ctx.start db) =
        { writer := ⟨some 400, "User name needs to be specified\n"⟩, db := db, trace := [] }) ∧
    ((request.vars.lookup "cluster").isSome →
      (request.query.lookup "username").isSome →
      request.query.lookup "reason" = none →
      newClusterConfiguration storage marshal request (Ctx.start db) =
        { writer := ⟨some 400, "Reason needs to be specified\n"⟩, db := db, trace := [] }) ∧
    ((request.vars.lookup "cluster").isSome →
      (request.query.lookup "username").isSome →
      (request.query.lookup "reason").isSome →
      request.query.lookup "description" = none →
      newClusterConfiguration storage marshal request (Ctx.start db) =
        { writer := ⟨some 400, "Description needs to be specified\n"⟩, db := db,
          trace := [] }) ∧
    ((request.vars.lookup "cluster").isSome →
      (request.query.lookup "username").isSome →
      (request.query.lookup "reason").isSome →
      (request.query.lookup "description").isSome →
      (request.Body.err ≠ none ∨ request.Body.data = "") →
      newClusterConfiguration storage marshal request (Ctx.start db) =
        { writer := ⟨some 400, "Configuration needs to be provided in the request body"⟩,
          db := db, trace := [] }) ∧
    ["Cluster ID needs to be specified", "User name needs to be specified\n",
      "Reason needs to be specified\n", "Description needs to be specified\n",
      "Configuration needs to be provided in the request body"].Nodup := by
  refine ⟨?_, ?_, ?_, ?_, ?_, by decide⟩
  · intro hc
    simp [newClusterConfiguration, hc, Ctx.start, Ctx.WriteHeader, Ctx.WriteString,
      ResponseWriter.fresh, ResponseWriter.WriteHeader, ResponseWriter.Write]
  · intro hc hu
    obtain ⟨cluster, hc⟩ := Option.isSome_iff_exists.mp hc
    simp [newClusterConfiguration, hc, hu, Ctx.start, Ctx.WriteHeader, Ctx.WriteString,
      ResponseWriter.fresh, ResponseWriter.WriteHeader, ResponseWriter.Write]
  · intro hc hu hr
    obtain ⟨cluster, hc⟩ := Option.isSome_iff_exists.mp hc
    obtain ⟨username, hu⟩ := Option.isSome_iff_exists.mp hu
    simp [newClusterConfiguration, hc, hu, hr, Ctx.start, Ctx.WriteHeader, Ctx.WriteString,
      ResponseWriter.fresh, ResponseWriter.WriteHeader, ResponseWriter.Write]
  · intro hc hu hr hd
    obtain ⟨cluster, hc⟩ := Option.isSome_iff_exists.mp hc
    obtain ⟨username, hu⟩ := Option.isSome_iff_exists.mp hu
    obtain ⟨reason, hr⟩ := Option.isSome_iff_exists.mp hr
    simp [newClusterConfiguration, hc, hu, hr, hd, Ctx.start, Ctx.WriteHeader,
      Ctx.WriteString, ResponseWriter.fresh, ResponseWriter.WriteHeader, ResponseWriter.Write]
  · intro hc hu hr hd hb
    obtain ⟨cluster, hc⟩ := Option.isSome_iff_exists.mp hc
    obtain ⟨username, hu⟩ := Option.isSome_iff_exists.mp hu
    obtain ⟨reason, hr⟩ := Option.isSome_iff_exists.mp hr
    obtain ⟨description, hd⟩ := Option.isSome_iff_exists.mp hd
    have hcond : (ReadAll request.Body).2 ≠ none ∨ (ReadAll request.Body).1.length = 0 := by
      rcases hb with h | h
      · exact Or.inl h
      · exact Or.inr ((length_eq_zero_iff _).mpr h)
    simp only [newClusterConfiguration, hc, hu, hr, hd, if_pos hcond]
    simp [Ctx.start, Ctx.WriteHeader, Ctx.WriteString,
      ResponseWriter.fresh, ResponseWriter.WriteHeader, ResponseWriter.Write]

/-- Witness of C2: a request without the `reason` parameter and one with an empty body. -/
theorem newClusterConfiguration_first_missing_input_witness :
    newClusterConfiguration memStorage marshalRows
        (clusterRequest "c1" [("username", ⟨"u", []⟩), ("description", ⟨"d", []⟩)])
        (Ctx.start db1) =
      { writer := ⟨some 400, "Reason needs to be specified\n"⟩, db := db1, trace := [] } ∧
    newClusterConfiguration memStorage marshalRows
        (clusterRequest "c1"
          [("username", ⟨"u", []⟩), ("reason", ⟨"r", []⟩), ("description", ⟨"d", []⟩)])
        (Ctx.start db1) =
      { writer := ⟨some 400, "Configuration needs to be provided in the request body"⟩,
        db := db1, trace := [] } :=
  ⟨(newClusterConfiguration_first_missing_input memStorage marshalRows
      (clusterRequest "c1" [("username", ⟨"u", []⟩), ("description", ⟨"d", []⟩)]) db1).2.2.1
      (by decide) (by decide) (by decide),
   (newClusterConfiguration_first_missing_input memStorage marshalRows
      (clusterRequest "c1"
        [("username", ⟨"u", []⟩), ("reason", ⟨"r", []⟩), ("description", ⟨"d", []⟩)])
      db1).2.2.2.2.1 (by decide) (by decide) (by decide) (by decide) (Or.inr (by decide))⟩

/-! ## The `username` and `reason` parameters -/

/-- C1, as stated, fails: `deleteConfiguration` on a request with an `id` and an empty
query string logs, calls the storage and answers 200 `Deleted`; and
`newClusterConfiguration` on a request without `username` that also lacks the cluster
variable answers with the message of the cluster, not of the parameter. -/
theorem mutating_handlers_username_reason_counterexample :
    (idRequest "c1").query.lookup "username" = none ∧
    (idRequest "c1").query.lookup "reason" = none ∧
    deleteConfiguration memStorage (idRequest "c1") (Ctx.start db1) =
      { writer := ⟨some 200, "Deleted"⟩, db := [],
        trace := [Effect.LogAction "DeleteClusterConfigurationById" "tester" "c1",
          Effect.storage (.DeleteClusterConfigurationById "c1")] } ∧
    (enableConfiguration memStorage (idRequest "c1") (Ctx.start db1)).writer =
      ⟨some 200, "enabled"⟩ ∧
    (disableConfiguration memStorage (idRequest "c1") (Ctx.start db1)).writer =
      ⟨some 200, "disabled"⟩ ∧
    (newClusterConfiguration memStorage marshalRows
        { vars := [], query := [], Body := ⟨"cfg", none⟩ } (Ctx.start db1)).writer =
      ⟨some 400, "Cluster ID needs to be specified"⟩ := by
  decide

/-- C1, amended: in `newClusterConfiguration`, `enableClusterConfiguration` and
`disableClusterConfiguration`, a request whose query lacks `username` or lacks `reason`
is answered 400 without any call to the storage or the audit log and with the storage
state untouched; when the cluster variable is present the body is the message of
`username` if that is missing and the message of `reason` if only that is missing.  The
handlers by id (`deleteConfiguration`, `enableConfiguration`, `disableConfiguration`)
read no query parameter: their outcome is the same for every query string. -/
theorem cluster_handlers_require_username_and_reason (storage : Storage σ κ)
    (marshal : List κ → String) (request : Request) (db : σ)
    (hmiss : request.query.lookup "username" = none ∨ request.query.lookup "reason" = none) :
    (∀ out ∈ [newClusterConfiguration storage marshal request (Ctx.start db),
        enableClusterConfiguration storage marshal request (Ctx.start db),
        disableClusterConfiguration storage marshal request (Ctx.start db)],
      out.writer.status = some 400 ∧ out.trace = [] ∧ out.db = db ∧
      ((request.vars.lookup "cluster").isSome → request.query.lookup "username" = none →
        out.writer.body = "User name needs to be specified\n") ∧
      ((request.vars.lookup "cluster").isSome → (request.query.lookup "username").isSome →
        out.writer.body = "Reason needs to be specified\n")) ∧
    (∀ (query : List (String × ParamValues)) (c : Ctx σ),
      deleteConfiguration storage { request with query := query } c =
        deleteConfiguration storage request c ∧
      enableConfiguration storage { request with query := query } c =
        enableConfiguration storage request c ∧
      disableConfiguration storage { request with query := query } c =
        disableConfiguration storage request c) := by
  refine ⟨?_, fun query c => ⟨rfl, rfl, rfl⟩⟩
  intro out hout
  simp only [List.mem_cons, List.mem_singleton, List.not_mem_nil, or_false] at hout
  cases hc : request.vars.lookup "cluster" with
  | none =>
    rcases hout with rfl | rfl | rfl <;>
      simp [newClusterConfiguration, enableClusterConfiguration, disableClusterConfiguration,
        hc, Ctx.start, Ctx.WriteHeader, Ctx.WriteString, ResponseWriter.fresh,
        ResponseWriter.WriteHeader, ResponseWriter.Write]
  | some cluster =>
    cases hu : request.query.lookup "username" with
    | none =>
      rcases hout with rfl | rfl | rfl <;>
        simp [newClusterConfiguration, enableClusterConfiguration,
          disableClusterConfiguration, hc, hu, Ctx.start, Ctx.WriteHeader, Ctx.WriteString,
          ResponseWriter.fresh, ResponseWriter.WriteHeader, ResponseWriter.Write]
    | some username =>
      have hr : request.query.lookup "reason" = none := by
        rcases hmiss with h | h
        · rw [hu] at h
          cases h
        · exact h
      rcases hout with rfl | rfl | rfl <;>
        simp [newClusterConfiguration, enableClusterConfiguration,
          disableClusterConfiguration, hc, hu, hr, Ctx.start, Ctx.WriteHeader,
          Ctx.WriteString, ResponseWriter.fresh, ResponseWriter.WriteHeader,
          ResponseWriter.Write]

/-- Witness of C1 amended: `enableClusterConfiguration` on a request of cluster `c1` with
`username` and without `reason`. -/
theorem cluster_handlers_require_username_and_reason_witness :
    (enableClusterConfiguration memStorage marshalRows
        (clusterRequest "c1" [("username", ⟨"u", []⟩)]) (Ctx.start db1)).writer =
      ⟨some 400, "Reason needs to be specified\n"⟩ ∧
    (enableClusterConfiguration memStorage marshalRows
        (clusterRequest "c1" [("username", ⟨"u", []⟩)]) (Ctx.start db1)).trace = [] := by
  have h := (cluster_handlers_require_username_and_reason memStorage marshalRows
    (clusterRequest "c1" [("username", ⟨"u", []⟩)]) db1 (Or.inr (by decide))).1
    (enableClusterConfiguration memStorage marshalRows
      (clusterRequest "c1" [("username", ⟨"u", []⟩)]) (Ctx.start db1))
    (by simp)
  exact ⟨by decide, h.2.1⟩

/-- C3, as stated, fails: with `username` present and empty the request is not rejected;
`storage.CreateClusterConfiguration` is called with the empty user name and the answer
is 200. -/
theorem newClusterConfiguration_empty_value_counterexample :
    (emptyUsernameRequest.query.lookup "username").map ParamValues.head = some "" ∧
    newClusterConfiguration memStorage marshalRows emptyUsernameRequest (Ctx.start db1) =
      { writer := ⟨some 200, "[cfg,old]\n"⟩,
        db := { id := "c1", cluster := "c1", username := "", reason := "r",
                description := "d", configuration := "cfg", active := false } :: db1,
        trace := [Effect.storage (.CreateClusterConfiguration "c1" "" "r" "d" "cfg"),
          Effect.LogAction "NewClusterConfiguration" "tester" "cfg"] } := by
  decide

/-- C3, amended: a `username`, `reason` or `description` parameter that is present is not
rejected, whatever its value, the empty string included: on a request with the cluster
variable, the three parameters and a readable body that is not empty, the handler calls
`storage.CreateClusterConfiguration` exactly once, with the first value of each parameter
as it stands, and the answer is 400 only when that call returns an error; otherwise it
is 200 with the encoded list. -/
theorem newClusterConfiguration_present_values_reach_storage (storage : Storage σ κ)
    (marshal : List κ → String) (request : Request) (db : σ) (cluster : String)
    (username reason description : ParamValues)
    (hc : request.vars.lookup "cluster" = some cluster)
    (hu : request.query.lookup "username" = some username)
    (hr : request.query.lookup "reason" = some reason)
    (hd : request.query.lookup "description" = some description)
    (herr : request.Body.err = none) (hb : request.Body.data ≠ "") :
    (newClusterConfiguration storage marshal request (Ctx.start db)).storageCalls =
      [Effect.storage (.CreateClusterConfiguration cluster username.head reason.head
        description.head request.Body.data)] ∧
    ((newClusterConfiguration storage marshal request (Ctx.start db)).writer.status = some 400 ↔
      ∃ e, (storage.CreateClusterConfiguration cluster username.head reason.head
        description.head request.Body.data db).1 = .error e) ∧
    (∀ configurations, (storage.CreateClusterConfiguration cluster username.head reason.head
        description.head request.Body.data db).1 = .ok configurations →
      (newClusterConfiguration storage marshal request (Ctx.start db)).writer =
        ⟨some 200, marshal configurations⟩) := by
  rw [newClusterConfiguration_run storage marshal request db cluster username reason
    description hc hu hr hd herr hb]
  cases h : (storage.CreateClusterConfiguration cluster username.head reason.head
    description.head request.Body.data db).1 <;> simp

/-- Witness of C3 amended: the request with the empty user name. -/
theorem newClusterConfiguration_present_values_reach_storage_witness :
    (newClusterConfiguration memStorage marshalRows emptyUsernameRequest
        (Ctx.start db1)).storageCalls =
      [Effect.storage (.CreateClusterConfiguration "c1" "" "r" "d" "cfg")] :=
  (newClusterConfiguration_present_values_reach_storage memStorage marshalRows
    emptyUsernameRequest db1 "c1" ⟨"", []⟩ ⟨"r", []⟩ ⟨"d", []⟩ (by decide) (by decide)
    (by decide) (by decide) (by decide) (by decide)).1

/-! ## Storage errors -/

/-- C4: in each of the eight handlers, on a request that passes the checks of the
handler, an error `e` returned by the storage call is answered with status 400 and the
body `e`, and nothing else is written. -/
theorem storage_error_answers_400_with_error_text (storage : Storage σ κ)
    (marshal : List κ → String) (request : Request) (db : σ) (e : GoError) :
    (∀ id, request.vars.lookup "id" = some id →
      (storage.GetClusterConfigurationById id db).1 = .error e →
      (getConfiguration storage request (Ctx.start db)).writer = ⟨some 400, e⟩) ∧
    (∀ id, request.vars.lookup "id" = some id →
      (storage.DeleteClusterConfigurationById id db).1 = some e →
      (deleteConfiguration storage request (Ctx.start db)).writer = ⟨some 400, e⟩) ∧
    ((storage.ListAllClusterConfigurations db).1 = .error e →
      (getAllConfigurations storage marshal request (Ctx.start db)).writer = ⟨some 400, e⟩) ∧
    (∀ cluster, request.vars.lookup "cluster" = some cluster →
      (storage.ListClusterConfiguration cluster db).1 = .error e →
      (getClusterConfiguration storage marshal request (Ctx.start db)).writer =
        ⟨some 400, e⟩) ∧
    (∀ id active, request.vars.lookup "id" = some id →
      (storage.EnableOrDisableClusterConfigurationById id active db).1 = some e →
      (enableOrDisableConfiguration storage request (Ctx.start db) active).writer =
        ⟨some 400, e⟩) ∧
    (∀ cluster username reason description,
      request.vars.lookup "cluster" = some cluster →
      request.query.lookup "username" = some username →
      request.query.lookup "reason" = some reason →
      request.query.lookup "description" = some description →
      request.Body.err = none → request.Body.data ≠ "" →
      (storage.CreateClusterConfiguration cluster username.head reason.head description.head
        request.Body.data db).1 = .error e →
      (newClusterConfiguration storage marshal request (Ctx.start db)).writer =
        ⟨some 400, e⟩) ∧
    (∀ cluster username reason,
      request.vars.lookup "cluster" = some cluster →
      request.query.lookup "username" = some username →
      request.query.lookup "reason" = some reason →
      (storage.EnableClusterConfiguration cluster username.head reason.head db).1 = .error e →
      (enableClusterConfiguration storage marshal request (Ctx.start db)).writer =
        ⟨some 400, e⟩) ∧
    (∀ cluster username reason,
      request.vars.lookup "cluster" = some cluster →
      request.query.lookup "username" = some username →
      request.query.lookup "reason" = some reason →
      (storage.DisableClusterConfiguration cluster username.head reason.head db).1 = .error e →
      (disableClusterConfiguration storage marshal request (Ctx.start db)).writer =
        ⟨some 400, e⟩) := by
  refine ⟨?_, ?_, ?_, ?_, ?_, ?_, ?_, ?_⟩
  · intro id hid h
    rw [getConfiguration_run storage request db id hid]
    simp [h]
  · intro id hid h
    rw [deleteConfiguration_run storage request db id hid]
    simp [h]
  · intro h
    rw [getAllConfigurations_run storage marshal request db]
    simp [h]
  · intro cluster hc h
    rw [getClusterConfiguration_run storage marshal request db cluster hc]
    simp [h]
  · intro id active hid h
    rw [enableOrDisableConfiguration_run storage request db id active hid]
    simp [h]
  · intro cluster username reason description hc hu hr hd herr hb h
    rw [newClusterConfiguration_run storage marshal request db cluster username reason
      description hc hu hr hd herr hb]
    simp [h]
  · intro cluster username reason hc hu hr h
    rw [enableClusterConfiguration_run storage marshal request db cluster username reason
      hc hu hr]
    simp [h]
  · intro cluster username reason hc hu hr h
    rw [disableClusterConfiguration_run storage marshal request db cluster username reason
      hc hu hr]
    simp [h]

/-- Witness of C4: reading and deleting a configuration that the storage does not hold. -/
theorem storage_error_answers_400_with_error_text_witness :
    (getConfiguration memStorage (idRequest "zz") (Ctx.start db1)).writer =
      ⟨some 400, "no such configuration"⟩ ∧
    (deleteConfiguration memStorage (idRequest "zz") (Ctx.start db1)).writer =
      ⟨some 400, "no such configuration"⟩ :=
  ⟨(storage_error_answers_400_with_error_text memStorage marshalRows (idRequest "zz") db1
      "no such configuration").1 "zz" (by decide) rfl,
   (storage_error_answers_400_with_error_text memStorage marshalRows (idRequest "zz") db1
      "no such configuration").2.1 "zz" (by decide) (by decide)⟩

/-! ## Enabling and disabling one configuration -/

/-- C5: on a request with an `id`, `enableOrDisableConfiguration` logs one action and then
calls `storage.EnableOrDisableClusterConfigurationById(id, active)` with the flag as
given; when the call succeeds the status is 200 and the body agrees with the action
logged: `DisableClusterConfiguration` and `disabled` for the flag `0`,
`EnableClusterConfiguration` and `enabled` for any other flag.  So `enableConfiguration`
answers `enabled` and `disableConfiguration` answers `disabled` on success.  The action is
logged and the storage called whatever the storage returns, and the two wrappers are the
shared handler at the flags `1` and `0`: `enableConfiguration` logs
`EnableClusterConfiguration`, calls the storage with the flag `1` and answers 200 `enabled`
or 400 with the error; `disableConfiguration` logs `DisableClusterConfiguration`, calls
the storage with the flag `0` and answers 200 `disabled` or 400 with the error. -/
theorem enableOrDisableConfiguration_answer_agrees_with_action (storage : Storage σ κ)
    (request : Request) (db : σ) (id active : String)
    (hid : request.vars.lookup "id" = some id) :
    (enableOrDisableConfiguration storage request (Ctx.start db) active).storageCalls =
      [Effect.storage (.EnableOrDisableClusterConfigurationById id active)] ∧
    ((storage.EnableOrDisableClusterConfigurationById id active db).1 = none →
      (active = "0" →
        (enableOrDisableConfiguration storage request (Ctx.start db) active).trace =
          [Effect.LogAction "DisableClusterConfiguration" "tester" id,
            Effect.storage (.EnableOrDisableClusterConfigurationById id active)] ∧
        (enableOrDisableConfiguration storage request (Ctx.start db) active).writer =
          ⟨some 200, "disabled"⟩) ∧
      (active ≠ "0" →
        (enableOrDisableConfiguration storage request (Ctx.start db) active).trace =
          [Effect.LogAction "EnableClusterConfiguration" "tester" id,
            Effect.storage (.EnableOrDisableClusterConfigurationById id active)] ∧
        (enableOrDisableConfiguration storage request (Ctx.start db) active).writer =
          ⟨some 200, "enabled"⟩)) ∧
    ((storage.EnableOrDisableClusterConfigurationById id "1" db).1 = none →
      (enableConfiguration storage request (Ctx.start db)).writer = ⟨some 200, "enabled"⟩) ∧
    ((storage.EnableOrDisableClusterConfigurationById id "0" db).1 = none →
      (disableConfiguration storage request (Ctx.start db)).writer =
        ⟨some 200, "disabled"⟩) ∧
    (enableOrDisableConfiguration storage request (Ctx.start db) active).trace =
      [Effect.LogAction
          (if active = "0" then "DisableClusterConfiguration"
           else "EnableClusterConfiguration") "tester" id,
        Effect.storage (.EnableOrDisableClusterConfigurationById id active)] ∧
    (enableOrDisableConfiguration storage request (Ctx.start db) active).db =
      (storage.EnableOrDisableClusterConfigurationById id active db).2 ∧
    (∀ c : Ctx σ,
      enableConfiguration storage request c =
        enableOrDisableConfiguration storage request c "1" ∧
      disableConfiguration storage request c =
        enableOrDisableConfiguration storage request c "0") ∧
    enableConfiguration storage request (Ctx.start db) =
      { writer :=
          match (storage.EnableOrDisableClusterConfigurationById id "1" db).1 with
          | some err => ⟨some 400, err⟩
          | none => ⟨some 200, "enabled"⟩,
        db := (storage.EnableOrDisableClusterConfigurationById id "1" db).2,
        trace := [Effect.LogAction "EnableClusterConfiguration" "tester" id,
          Effect.storage (.EnableOrDisableClusterConfigurationById id "1")] } ∧
    disableConfiguration storage request (Ctx.start db) =
      { writer :=
          match (storage.EnableOrDisableClusterConfigurationById id "0" db).1 with
          | some err => ⟨some 400, err⟩
          | none => ⟨some 200, "disabled"⟩,
        db := (storage.EnableOrDisableClusterConfigurationById id "0" db).2,
        trace := [Effect.LogAction "DisableClusterConfiguration" "tester" id,
          Effect.storage (.EnableOrDisableClusterConfigurationById id "0")] } := by
  refine ⟨?_, ?_, ?_, ?_, ?_, ?_, fun c => ⟨rfl, rfl⟩, ?_, ?_⟩
  · rw [enableOrDisableConfiguration_run storage request db id active hid]
    simp
  · intro h
    rw [enableOrDisableConfiguration_run storage request db id active hid]
    constructor
    · intro ha
      subst ha
      simp [h]
    · intro ha
      simp [h, ha]
  · intro h
    rw [enableConfiguration, enableOrDisableConfiguration_run storage request db id "1" hid]
    simp [h]
  · intro h
    rw [disableConfiguration, enableOrDisableConfiguration_run storage request db id "0" hid]
    simp [h]
  · rw [enableOrDisableConfiguration_run storage request db id active hid]
  · rw [enableOrDisableConfiguration_run storage request db id active hid]
  · rw [enableConfiguration, enableOrDisableConfiguration_run storage request db id "1" hid]
    simp
  · rw [disableConfiguration, enableOrDisableConfiguration_run storage request db id "0" hid]
    simp

/-- Witness of C5: disabling the configuration `c1` of the storage in memory, and
enabling a configuration the storage does not hold, which is logged, reaches the storage
with the flag `1` and is answered 400. -/
theorem enableOrDisableConfiguration_answer_agrees_with_action_witness :
    ((enableOrDisableConfiguration memStorage (idRequest "c1") (Ctx.start db1) "0").trace =
        [Effect.LogAction "DisableClusterConfiguration" "tester" "c1",
          Effect.storage (.EnableOrDisableClusterConfigurationById "c1" "0")] ∧
      (enableOrDisableConfiguration memStorage (idRequest "c1") (Ctx.start db1) "0").writer =
        ⟨some 200, "disabled"⟩) ∧
    enableConfiguration memStorage (idRequest "zz") (Ctx.start db1) =
      { writer := ⟨some 400, "no such configuration"⟩, db := db1,
        trace := [Effect.LogAction "EnableClusterConfiguration" "tester" "zz",
          Effect.storage (.EnableOrDisableClusterConfigurationById "zz" "1")] } :=
  ⟨((enableOrDisableConfiguration_answer_agrees_with_action memStorage (idRequest "c1") db1
      "c1" "0" (by decide)).2.1 (by decide)).1 rfl,
   (enableOrDisableConfiguration_answer_agrees_with_action memStorage (idRequest "zz") db1
      "zz" "1" (by decide)).2.2.2.2.2.2.2.1⟩

/-! ## The audit log -/

/-- C6: on a request that passes the checks of `newClusterConfiguration`, the audit record
`(NewClusterConfiguration, tester, body)` is in the trace exactly when
`storage.CreateClusterConfiguration` succeeds: on success it is the one record logged and
the body of the answer is the encoding of the list the storage returned; on a storage
error nothing is logged. -/
theorem newClusterConfiguration_logs_iff_created (storage : Storage σ κ)
    (marshal : List κ → String) (request : Request) (db : σ) (cluster : String)
    (username reason description : ParamValues)
    (hc : request.vars.lookup "cluster" = some cluster)
    (hu : request.query.lookup "username" = some username)
    (hr : request.query.lookup "reason" = some reason)
    (hd : request.query.lookup "description" = some description)
    (herr : request.Body.err = none) (hb : request.Body.data ≠ "") :
    (Effect.LogAction "NewClusterConfiguration" "tester" request.Body.data ∈
        (newClusterConfiguration storage marshal request (Ctx.start db)).trace ↔
      ∃ configurations, (storage.CreateClusterConfiguration cluster username.head reason.head
        description.head request.Body.data db).1 = .ok configurations) ∧
    (∀ configurations, (storage.CreateClusterConfiguration cluster username.head reason.head
        description.head request.Body.data db).1 = .ok configurations →
      (newClusterConfiguration storage marshal request (Ctx.start db)).logCalls =
        [Effect.LogAction "NewClusterConfiguration" "tester" request.Body.data] ∧
      (newClusterConfiguration storage marshal request (Ctx.start db)).writer =
        ⟨some 200, marshal configurations⟩) ∧
    (∀ e, (storage.CreateClusterConfiguration cluster username.head reason.head
        description.head request.Body.data db).1 = .error e →
      (newClusterConfiguration storage marshal request (Ctx.start db)).logCalls = []) := by
  rw [newClusterConfiguration_run storage marshal request db cluster username reason
    description hc hu hr hd herr hb]
  cases h : (storage.CreateClusterConfiguration cluster username.head reason.head
    description.head request.Body.data db).1 <;> simp

/-- Witness of C6: creating a configuration of cluster `c1` in the storage in memory. -/
theorem newClusterConfiguration_logs_iff_created_witness :
    (newClusterConfiguration memStorage marshalRows createRequest (Ctx.start db1)).logCalls =
      [Effect.LogAction "NewClusterConfiguration" "tester" "cfg"] ∧
    (newClusterConfiguration memStorage marshalRows createRequest (Ctx.start db1)).writer =
      ⟨some 200, marshalRows
        [{ id := "c1", cluster := "c1", username := "u", reason := "r", description := "d",
           configuration := "cfg", active := false },
         { id := "c1", cluster := "c1", username := "u", reason := "r", description := "d",
           configuration := "old", active := false }]⟩ :=
  (newClusterConfiguration_logs_iff_created memStorage marshalRows createRequest db1 "c1"
    ⟨"u", []⟩ ⟨"r", []⟩ ⟨"d", []⟩ (by decide) (by decide) (by decide) (by decide)
    (by decide) (by decide)).2.1 _ rfl

/-- C7: on a request with the cluster variable and the parameters `username` and
`reason`, `enableClusterConfiguration` (and likewise `disableClusterConfiguration`) makes
exactly two calls, in this order: one audit record with the action, the first user name
and the cluster, then the storage method with the cluster and the first values of
`username` and `reason`.  The record is therefore logged whatever the storage returns;
when the storage succeeds the body is the encoding of the list it returned. -/
theorem cluster_configuration_logged_before_storage (storage : Storage σ κ)
    (marshal : List κ → String) (request : Request) (db : σ) (cluster : String)
    (username reason : ParamValues)
    (hc : request.vars.lookup "cluster" = some cluster)
    (hu : request.query.lookup "username" = some username)
    (hr : request.query.lookup "reason" = some reason) :
    (enableClusterConfiguration storage marshal request (Ctx.start db)).trace =
      [Effect.LogAction "EnableClusterConfiguration" username.head cluster,
        Effect.storage (.EnableClusterConfiguration cluster username.head reason.head)] ∧
    (∀ configurations,
      (storage.EnableClusterConfiguration cluster username.head reason.head db).1 =
        .ok configurations →
      (enableClusterConfiguration storage marshal request (Ctx.start db)).writer =
        ⟨some 200, marshal configurations⟩) ∧
    (disableClusterConfiguration storage marshal request (Ctx.start db)).trace =
      [Effect.LogAction "DisableClusterConfiguration" username.head cluster,
        Effect.storage (.DisableClusterConfiguration cluster username.head reason.head)] ∧
    (∀ configurations,
      (storage.DisableClusterConfiguration cluster username.head reason.head db).1 =
        .ok configurations →
      (disableClusterConfiguration storage marshal request (Ctx.start db)).writer =
        ⟨some 200, marshal configurations⟩) := by
  rw [enableClusterConfiguration_run storage marshal request db cluster username reason
      hc hu hr,
    disableClusterConfiguration_run storage marshal request db cluster username reason
      hc hu hr]
  refine ⟨rfl, ?_, rfl, ?_⟩
  · intro configurations h
    simp [h]
  · intro configurations h
    simp [h]

/-- Witness of C7: enabling the configurations of a cluster the storage does not know;
the record is logged although the storage call fails. -/
theorem cluster_configuration_logged_before_storage_witness :
    (enableClusterConfiguration memStorage marshalRows
        (clusterRequest "c9" [("username", ⟨"u", ["v"]⟩), ("reason", ⟨"r", []⟩)])
        (Ctx.start db1)).trace =
      [Effect.LogAction "EnableClusterConfiguration" "u" "c9",
        Effect.storage (.EnableClusterConfiguration "c9" "u" "r")] :=
  (cluster_configuration_logged_before_storage memStorage marshalRows
    (clusterRequest "c9" [("username", ⟨"u", ["v"]⟩), ("reason", ⟨"r", []⟩)]) db1 "c9"
    ⟨"u", ["v"]⟩ ⟨"r", []⟩ (by decide) (by decide) (by decide)).1

/-! ## The body of a configuration -/

/-- C8: `newClusterConfiguration` passes the body of the request, as it is, as the
configuration argument of `storage.CreateClusterConfiguration`; `getConfiguration` writes
exactly the text `storage.GetClusterConfigurationById` returns; hence, over a storage
whose lookup of `id` after a successful create returns the text given to the create, the
body answered by `getConfiguration` after the create is the body submitted. -/
theorem configuration_body_round_trip (storage : Storage σ κ) (marshal : List κ → String)
    (create get : Request) (db : σ) (cluster id : String)
    (username reason description : ParamValues)
    (hc : create.vars.lookup "cluster" = some cluster)
    (hu : create.query.lookup "username" = some username)
    (hr : create.query.lookup "reason" = some reason)
    (hd : create.query.lookup "description" = some description)
    (herr : create.Body.err = none) (hb : create.Body.data ≠ "")
    (hid : get.vars.lookup "id" = some id) :
    (newClusterConfiguration storage marshal create (Ctx.start db)).storageCalls =
      [Effect.storage (.CreateClusterConfiguration cluster username.head reason.head
        description.head create.Body.data)] ∧
    (∀ (db2 : σ) (text : String), (storage.GetClusterConfigurationById id db2).1 = .ok text →
      (getConfiguration storage get (Ctx.start db2)).writer = ⟨some 200, text⟩) ∧
    ((∀ (configuration : String) (configurations : List κ) (db2 : σ),
        storage.CreateClusterConfiguration cluster username.head reason.head description.head
          configuration db = (.ok configurations, db2) →
        (storage.GetClusterConfigurationById id db2).1 = .ok configuration) →
      (newClusterConfiguration storage marshal create (Ctx.start db)).writer.status =
        some 200 →
      (getConfiguration storage get
          (Ctx.start (newClusterConfiguration storage marshal create (Ctx.start db)).db)).writer =
        ⟨some 200, create.Body.data⟩) := by
  have hget : ∀ (db2 : σ) (text : String),
      (storage.GetClusterConfigurationById id db2).1 = .ok text →
      (getConfiguration storage get (Ctx.start db2)).writer = ⟨some 200, text⟩ := by
    intro db2 text h
    rw [getConfiguration_run storage get db2 id hid]
    simp [h]
  refine ⟨?_, hget, ?_⟩
  · rw [newClusterConfiguration_run storage marshal create db cluster username reason
      description hc hu hr hd herr hb]
    cases h : (storage.CreateClusterConfiguration cluster username.head reason.head
      description.head create.Body.data db).1 <;> simp
  · intro hlaw hok
    apply hget
    rw [newClusterConfiguration_run storage marshal create db cluster username reason
      description hc hu hr hd herr hb] at hok ⊢
    rcases hres : storage.CreateClusterConfiguration cluster username.head reason.head
      description.head create.Body.data db with ⟨r, db2⟩
    rw [hres] at hok
    cases r with
    | error e => simp at hok
    | ok configurations => exact hlaw _ configurations db2 hres

/-- Witness of C8: over the storage in memory, the body `cfg` submitted for cluster `c1`
is the body answered for the id `c1`. -/
theorem configuration_body_round_trip_witness :
    (getConfiguration memStorage (idRequest "c1")
        (Ctx.start (newClusterConfiguration memStorage marshalRows createRequest
          (Ctx.start db1)).db)).writer = ⟨some 200, "cfg"⟩ :=
  (configuration_body_round_trip memStorage marshalRows createRequest (idRequest "c1") db1
    "c1" "c1" ⟨"u", []⟩ ⟨"r", []⟩ ⟨"d", []⟩ (by decide) (by decide) (by decide) (by decide)
    (by decide) (by decide) (by decide)).2.2
    (by
      intro configuration configurations db2 h
      simp [memStorage] at h
      obtain ⟨_, rfl⟩ := h
      simp [memStorage])
    (by decide)

/-! ## Deleting a cluster -/

/-- C9: deleting a cluster answers 202 Accepted for every id, and the list of clusters
afterwards is the list before without the entries of that id, the others in their order;
so deleting an id that is not in the list leaves the list as it was.  On the clusters of
the tests: deleting 4 leaves the clusters 0 to 3, and deleting 40 then changes nothing. -/
theorem deleteCluster_accepted_and_removes_exactly_id (id : Int) (db : List Cluster) :
    (deleteCluster id (Ctx.start db)).writer.statusCode = 202 ∧
    (deleteCluster id (Ctx.start db)).writer.body = "" ∧
    getClusters (deleteCluster id (Ctx.start db)) = db.filter (fun c => decide (c.ID ≠ id)) ∧
    ((∀ c ∈ db, c.ID ≠ id) → getClusters (deleteCluster id (Ctx.start db)) = db) ∧
    getClusters (deleteCluster 4 (Ctx.start seededClusters)) =
      [⟨0, "cluster0"⟩, ⟨1, "cluster1"⟩, ⟨2, "cluster2"⟩, ⟨3, "cluster3"⟩] ∧
    getClusters (deleteCluster 40 (Ctx.start (deleteCluster 4 (Ctx.start seededClusters)).db)) =
      [⟨0, "cluster0"⟩, ⟨1, "cluster1"⟩, ⟨2, "cluster2"⟩, ⟨3, "cluster3"⟩] := by
  refine ⟨by simp [deleteCluster, ResponseWriter.statusCode], by simp [deleteCluster], ?_, ?_,
    by decide, by decide⟩
  · simp [deleteCluster, getClusters, DeleteCluster_eq_filter]
  · intro h
    simp only [deleteCluster, getClusters, Ctx.start, Ctx.WriteHeader, DeleteCluster_eq_filter]
    apply List.filter_eq_self.mpr
    intro c hc
    simpa using h c hc

/-- Witness of C9: cluster 40 is not among the clusters of the tests, and deleting it
leaves them as they were. -/
theorem deleteCluster_accepted_and_removes_exactly_id_witness :
    getClusters (deleteCluster 40 (Ctx.start seededClusters)) = seededClusters :=
  (deleteCluster_accepted_and_removes_exactly_id 40 seededClusters).2.2.2.1 (by decide)

/-! ## One storage call, one optional log call -/

/-- C10: started on a request, every handler of `configuration.go` makes at most one call
to the storage and at most one call to `splunk.LogAction`, and the three handlers that
only read (`getConfiguration`, `getAllConfigurations`, `getClusterConfiguration`) make no
call to `splunk.LogAction`. -/
theorem handlers_call_storage_and_log_at_most_once (storage : Storage σ κ)
    (marshal : List κ → String) (request : Request) (db : σ) (active : String) :
    (∀ out ∈ [getConfiguration storage request (Ctx.start db),
        deleteConfiguration storage request (Ctx.start db),
        getAllConfigurations storage marshal request (Ctx.start db),
        getClusterConfiguration storage marshal request (Ctx.start db),
        enableOrDisableConfiguration storage request (Ctx.start db) active,
        enableConfiguration storage request (Ctx.start db),
        disableConfiguration storage request (Ctx.start db),
        newClusterConfiguration storage marshal request (Ctx.start db),
        enableClusterConfiguration storage marshal request (Ctx.start db),
        disableClusterConfiguration storage marshal request (Ctx.start db)],
      out.storageCalls.length ≤ 1 ∧ out.logCalls.length ≤ 1) ∧
    (∀ out ∈ [getConfiguration storage request (Ctx.start db),
        getAllConfigurations storage marshal request (Ctx.start db),
        getClusterConfiguration storage marshal request (Ctx.start db)],
      out.logCalls = []) := by
  have h1 := getConfiguration_calls storage request db
  have h2 := deleteConfiguration_calls storage request db
  have h3 := getAllConfigurations_calls storage marshal request db
  have h4 := getClusterConfiguration_calls storage marshal request db
  have h5 := enableOrDisableConfiguration_calls storage request db active
  have h6 := enableOrDisableConfiguration_calls storage request db "1"
  have h7 := enableOrDisableConfiguration_calls storage request db "0"
  have h8 := newClusterConfiguration_calls storage marshal request db
  have h9 := enableClusterConfiguration_calls storage marshal request db
  have h10 := disableClusterConfiguration_calls storage marshal request db
  constructor
  · intro out hout
    simp only [List.mem_cons, List.mem_singleton, List.not_mem_nil, or_false] at hout
    rcases hout with rfl | rfl | rfl | rfl | rfl | rfl | rfl | rfl | rfl | rfl
    · exact ⟨h1.1, by rw [h1.2]; exact Nat.zero_le 1⟩
    · exact h2
    · exact ⟨h3.1, by rw [h3.2]; exact Nat.zero_le 1⟩
    · exact ⟨h4.1, by rw [h4.2]; exact Nat.zero_le 1⟩
    · exact h5
    · exact h6
    · exact h7
    · exact h8
    · exact h9
    · exact h10
  · intro out hout
    simp only [List.mem_cons, List.mem_singleton, List.not_mem_nil, or_false] at hout
    rcases hout with rfl | rfl | rfl
    · exact h1.2
    · exact h3.2
    · exact h4.2

end Server
